import Mathlib

/-!
# Shallow embedding of jspark311/Scheduler (src/Scheduler.h, src/Scheduler.cpp)

The scheduler keeps a singly linked list of `ScheduleItem` records rooted at
`schedule_root_node`.  We model the list as a `List ScheduleItem` in insertion
order (root first), pointers to nodes as the position of the first node whose
`pid` matches (all public operations reach nodes through `findNodeByPID`), the
`FunctionPointer` callback as `Option Nat` (an opaque non-null identifier or
`none` for `NULL`), and the optional profiling record as `Option ScheduleProfile`.

Machine integers: `pid`, `thread_time_to_wait`, `thread_period` and the
counters are `uint32_t`, modelled as `Nat`; the only arithmetic that can wrap
is the `next_pid++` in `get_valid_new_pid` and the `++`/`-` on the loop and
profiling counters, which carry an explicit `% 2^32`.  `thread_recurs` is
`int16_t`, modelled as `Int`; the only arithmetic on it is the decrement in
`serviceScheduledEvents`, which carries an explicit two's-complement wrap.

The external microsecond clock (`micros()`) is passed to
`serviceScheduledEvents` as explicit readings.  Callbacks are opaque: invoking
one does not change scheduler state (re-entrant mutation from inside a
callback is driven through the public operations themselves, e.g.
`removeSchedule` with `currently_executing` set).
-/

namespace SchedulerSpec

/-- `ScheduleProfile` (struct `sch_item_prof_t` in Scheduler.h). -/
structure ScheduleProfile where
  last_time_micros : Nat
  worst_time_micros : Nat
  best_time_micros : Nat
  execution_count : Nat
  profiling_active : Bool
  deriving DecidableEq

/-- `ScheduleItem` (struct `sch_item_t` in Scheduler.h); the `next` pointer is
the list structure itself. -/
structure ScheduleItem where
  prof_data : Option ScheduleProfile
  pid : Nat
  thread_time_to_wait : Nat
  thread_period : Nat
  thread_recurs : Int
  thread_enabled : Bool
  thread_fire : Bool
  autoclear : Bool
  schedule_callback : Option Nat
  deriving DecidableEq

/-- The `Scheduler` class state (Scheduler.h); `currently_executing` and
`overhead` are members used by Scheduler.cpp. -/
structure Scheduler where
  next_pid : Nat
  schedule_root_node : List ScheduleItem
  currently_executing : Nat
  productive_loops : Nat
  total_loops : Nat
  overhead : Nat
  deriving DecidableEq

/-- Two's-complement wrap into the `int16_t` range `[-32768, 32767]`. -/
def int16wrap (x : Int) : Int := (x + 32768) % 65536 - 32768

/-- Wrapping `uint32_t` subtraction `a - b`. -/
def u32sub (a b : Nat) : Nat := ((a % 2 ^ 32) + 2 ^ 32 - (b % 2 ^ 32)) % 2 ^ 32

/-- Replace the list rooted at `schedule_root_node` (assignment through
`this->schedule_root_node` or through node pointers). -/
def setRoot (s : Scheduler) (l : List ScheduleItem) : Scheduler :=
  { s with schedule_root_node := l }

/-! ## Linked-list helpers -/

/-- `Scheduler::findNodeByPID`: first node in list order whose `pid` matches. -/
def findNodeByPID (g_pid : Nat) : List ScheduleItem → Option ScheduleItem
  | [] => none
  | current :: rest =>
      if current.pid = g_pid then some current else findNodeByPID g_pid rest

/-- Mutation through the pointer returned by `findNodeByPID`: rewrite the
first node whose `pid` matches, leave everything else in place. -/
def updateFirstByPID (g_pid : Nat) (f : ScheduleItem → ScheduleItem) :
    List ScheduleItem → List ScheduleItem
  | [] => []
  | current :: rest =>
      if current.pid = g_pid then f current :: rest
      else current :: updateFirstByPID g_pid f rest

/-- `Scheduler::destroyScheduleItem` applied to the node found by
`findNodeByPID`: unlink (and free) the first node whose `pid` matches. -/
def destroyFirstByPID (g_pid : Nat) : List ScheduleItem → List ScheduleItem
  | [] => []
  | current :: rest =>
      if current.pid = g_pid then rest else current :: destroyFirstByPID g_pid rest

/-- `Scheduler::insertScheduleItemAtEnd`: walk to the tail and append. -/
def insertScheduleItemAtEnd (nu : ScheduleItem) : List ScheduleItem → List ScheduleItem
  | [] => [nu]
  | current :: rest => current :: insertScheduleItemAtEnd nu rest

/-- `Scheduler::getTotalSchedules` (a `uint16_t` count). -/
def getTotalSchedules (s : Scheduler) : Nat :=
  s.schedule_root_node.length % 2 ^ 16

/-- `Scheduler::getActiveSchedules` (a `uint16_t` count). -/
def getActiveSchedules (s : Scheduler) : Nat :=
  (s.schedule_root_node.filter (·.thread_enabled)).length % 2 ^ 16

/-! ## PID allocation -/

/-- `Scheduler::get_valid_new_pid`: post-increment `next_pid` (wrapping at
`2^32`) and retry if the value handed out would be the reserved PID `0`. -/
def get_valid_new_pid (s : Scheduler) : Nat × Scheduler :=
  if h : s.next_pid = 0 then
    get_valid_new_pid { s with next_pid := (s.next_pid + 1) % 2 ^ 32 }
  else
    (s.next_pid, { s with next_pid := (s.next_pid + 1) % 2 ^ 32 })
termination_by (if s.next_pid = 0 then 1 else 0)
decreasing_by
  simp [h]

/-- `Scheduler::peekNextPID`. -/
def peekNextPID (s : Scheduler) : Nat := s.next_pid

/-! ## Profiling functions -/

/-- `Scheduler::scheduleBeingProfiled(ScheduleItem*)`. -/
def scheduleBeingProfiled (obj : ScheduleItem) : Bool :=
  match obj.prof_data with
  | some p => p.profiling_active
  | none => false

/-- `Scheduler::scheduleBeingProfiled(uint32_t)`. -/
def scheduleBeingProfiledPID (s : Scheduler) (g_pid : Nat) : Bool :=
  match findNodeByPID g_pid s.schedule_root_node with
  | some obj => scheduleBeingProfiled obj
  | none => false

/-- `Scheduler::beginProfiling(ScheduleItem*)`: if no record is attached,
allocate a fresh one (`active`, zeroed stats, `best = 0xFFFFFFFF`). -/
def beginProfiling (target : ScheduleItem) : ScheduleItem :=
  match target.prof_data with
  | none =>
      { target with
          prof_data := some
            { profiling_active := true,
              last_time_micros := 0,
              execution_count := 0,
              worst_time_micros := 0,
              best_time_micros := 0xFFFFFFFF } }
  | some _ => target

/-- `Scheduler::beginProfiling(uint32_t)`. -/
def beginProfilingPID (s : Scheduler) (g_pid : Nat) : Scheduler :=
  match findNodeByPID g_pid s.schedule_root_node with
  | some _ =>
      setRoot s (updateFirstByPID g_pid beginProfiling s.schedule_root_node)
  | none => s

/-- `Scheduler::stopProfiling(ScheduleItem*)`. -/
def stopProfiling (obj : ScheduleItem) : ScheduleItem :=
  match obj.prof_data with
  | some p => { obj with prof_data := some { p with profiling_active := false } }
  | none => obj

/-- `Scheduler::stopProfiling(uint32_t)`. -/
def stopProfilingPID (s : Scheduler) (g_pid : Nat) : Scheduler :=
  match findNodeByPID g_pid s.schedule_root_node with
  | some _ =>
      setRoot s (updateFirstByPID g_pid stopProfiling s.schedule_root_node)
  | none => s

/-- `Scheduler::clearProfilingData(ScheduleItem*)`.  The source reads
`obj->prof_data` into the local `p_data`, calls `free(p_data)` and then nulls
only the LOCAL copy (`p_data = NULL`), never `obj->prof_data`, so the member
keeps its (now dangling) value.  We model the benign reading of that dangling
pointer as still seeing the record's former bytes: the item is unchanged. -/
def clearProfilingData (obj : ScheduleItem) : ScheduleItem :=
  match obj.prof_data with
  | some _ => obj
  | none => obj

/-- `Scheduler::clearProfilingData(uint32_t)`. -/
def clearProfilingDataPID (s : Scheduler) (g_pid : Nat) : Scheduler :=
  match findNodeByPID g_pid s.schedule_root_node with
  | some _ =>
      setRoot s (updateFirstByPID g_pid clearProfilingData s.schedule_root_node)
  | none => s

/-! ## Creation and alteration -/

/-- `Scheduler::createSchedule`: validate `period > 1` and a non-null
callback, allocate the item (allocation success is assumed), assign a fresh
PID, enable immediately, append at the tail; return the PID or the sentinel
`0` with the state untouched. -/
def createSchedule (s : Scheduler) (sch_period : Nat) (recurrence : Int)
    (ac : Bool) (sch_callback : Option Nat) : Nat × Scheduler :=
  if sch_period > 1 then
    if sch_callback ≠ none then
      let pr := get_valid_new_pid s
      let nu_sched : ScheduleItem :=
        { pid := pr.1,
          thread_enabled := true,
          thread_fire := false,
          thread_recurs := recurrence,
          thread_period := sch_period,
          thread_time_to_wait := sch_period,
          autoclear := ac,
          schedule_callback := sch_callback,
          prof_data := none }
      (pr.1, setRoot pr.2 (insertScheduleItemAtEnd nu_sched pr.2.schedule_root_node))
    else (0, s)
  else (0, s)

/-- `Scheduler::alterSchedule(pid, period, recurrence, ac, callback)`. -/
def alterSchedule (s : Scheduler) (g_pid : Nat) (sch_period : Nat)
    (recurrence : Int) (ac : Bool) (sch_callback : Option Nat) : Bool × Scheduler :=
  if sch_period > 1 then
    if sch_callback ≠ none then
      match findNodeByPID g_pid s.schedule_root_node with
      | some _ =>
          (true, setRoot s (updateFirstByPID g_pid (fun obj =>
            { obj with
                thread_fire := false,
                thread_recurs := recurrence,
                thread_period := sch_period,
                thread_time_to_wait := sch_period,
                autoclear := ac,
                schedule_callback := sch_callback }) s.schedule_root_node))
      | none => (false, s)
    else (false, s)
  else (false, s)

/-- `Scheduler::alterSchedule(pid, ac)`: autoclear-only variant. -/
def alterScheduleAutoclear (s : Scheduler) (g_pid : Nat) (ac : Bool) :
    Bool × Scheduler :=
  match findNodeByPID g_pid s.schedule_root_node with
  | some _ =>
      (true, setRoot s (updateFirstByPID g_pid
        (fun obj => { obj with autoclear := ac }) s.schedule_root_node))
  | none => (false, s)

/-- `Scheduler::alterSchedule(pid, callback)`: callback-only variant. -/
def alterScheduleCallback (s : Scheduler) (g_pid : Nat)
    (sch_callback : Option Nat) : Bool × Scheduler :=
  if sch_callback ≠ none then
    match findNodeByPID g_pid s.schedule_root_node with
    | some _ =>
        (true, setRoot s (updateFirstByPID g_pid
          (fun obj => { obj with schedule_callback := sch_callback })
          s.schedule_root_node))
    | none => (false, s)
  else (false, s)

/-- `Scheduler::alterSchedulePeriod`. -/
def alterSchedulePeriod (s : Scheduler) (g_pid : Nat) (sch_period : Nat) :
    Bool × Scheduler :=
  if sch_period > 1 then
    match findNodeByPID g_pid s.schedule_root_node with
    | some _ =>
        (true, setRoot s (updateFirstByPID g_pid (fun obj =>
          { obj with
              thread_fire := false,
              thread_period := sch_period,
              thread_time_to_wait := sch_period }) s.schedule_root_node))
    | none => (false, s)
  else (false, s)

/-- `Scheduler::alterScheduleRecurrence`. -/
def alterScheduleRecurrence (s : Scheduler) (g_pid : Nat) (recurrence : Int) :
    Bool × Scheduler :=
  match findNodeByPID g_pid s.schedule_root_node with
  | some _ =>
      (true, setRoot s (updateFirstByPID g_pid (fun obj =>
        { obj with thread_fire := false, thread_recurs := recurrence })
        s.schedule_root_node))
  | none => (false, s)

/-! ## Queries -/

/-- `Scheduler::willRunAgain`. -/
def willRunAgain (s : Scheduler) (g_pid : Nat) : Bool :=
  match findNodeByPID g_pid s.schedule_root_node with
  | some nu_sched =>
      nu_sched.thread_enabled &&
        (nu_sched.thread_recurs = -1 || nu_sched.thread_recurs > 0)
  | none => false

/-- `Scheduler::scheduleEnabled`. -/
def scheduleEnabled (s : Scheduler) (g_pid : Nat) : Bool :=
  match findNodeByPID g_pid s.schedule_root_node with
  | some nu_sched => nu_sched.thread_enabled
  | none => false

/-! ## Enable / disable / delay / remove -/

/-- `Scheduler::enableSchedule`. -/
def enableSchedule (s : Scheduler) (g_pid : Nat) : Bool × Scheduler :=
  match findNodeByPID g_pid s.schedule_root_node with
  | some _ =>
      (true, setRoot s (updateFirstByPID g_pid
        (fun obj => { obj with thread_enabled := true }) s.schedule_root_node))
  | none => (false, s)

/-- `Scheduler::disableSchedule`: disable, clear the fire flag and reset the
countdown to the period. -/
def disableSchedule (s : Scheduler) (g_pid : Nat) : Bool × Scheduler :=
  match findNodeByPID g_pid s.schedule_root_node with
  | some _ =>
      (true, setRoot s (updateFirstByPID g_pid (fun obj =>
        { obj with
            thread_enabled := false,
            thread_fire := false,
            thread_time_to_wait := obj.thread_period }) s.schedule_root_node))
  | none => (false, s)

/-- `Scheduler::delaySchedule(pid, by_ms)`. -/
def delaySchedule (s : Scheduler) (g_pid : Nat) (by_ms : Nat) : Bool × Scheduler :=
  match findNodeByPID g_pid s.schedule_root_node with
  | some _ =>
      (true, setRoot s (updateFirstByPID g_pid (fun obj =>
        { obj with thread_time_to_wait := by_ms, thread_enabled := true })
        s.schedule_root_node))
  | none => (false, s)

/-- `Scheduler::delaySchedule(pid)`: reset the countdown to the item's own
period and enable. -/
def delayScheduleDefault (s : Scheduler) (g_pid : Nat) : Bool × Scheduler :=
  match findNodeByPID g_pid s.schedule_root_node with
  | some _ =>
      (true, setRoot s (updateFirstByPID g_pid (fun obj =>
        { obj with thread_time_to_wait := obj.thread_period, thread_enabled := true })
        s.schedule_root_node))
  | none => (false, s)

/-- `Scheduler::removeSchedule`: if the found item is the one currently
executing, force `autoclear = true` and `recurrence = 0` instead of
destroying it; otherwise unlink and free it.  Returns `true` always. -/
def removeSchedule (s : Scheduler) (g_pid : Nat) : Bool × Scheduler :=
  match findNodeByPID g_pid s.schedule_root_node with
  | some obj =>
      if obj.pid ≠ s.currently_executing then
        (true, setRoot s (destroyFirstByPID g_pid s.schedule_root_node))
      else
        (true, setRoot s (updateFirstByPID g_pid (fun o =>
          { o with autoclear := true, thread_recurs := 0 }) s.schedule_root_node))
  | none => (true, s)

/-! ## Tick advance -/

/-- One item's step of `Scheduler::advanceScheduler`: enabled items count
down while positive; at zero the fire flag is set and the countdown resets to
the period. -/
def advanceItem (current : ScheduleItem) : ScheduleItem :=
  if current.thread_enabled then
    if current.thread_time_to_wait > 0 then
      { current with thread_time_to_wait := current.thread_time_to_wait - 1 }
    else
      { current with thread_fire := true, thread_time_to_wait := current.thread_period }
  else current

/-- `Scheduler::advanceScheduler`: apply `advanceItem` to every node. -/
def advanceScheduler (s : Scheduler) : Scheduler :=
  { s with schedule_root_node := s.schedule_root_node.map advanceItem }

/-- `k` successive calls to `advanceScheduler` (first call applied first). -/
def advanceN : Nat → Scheduler → Scheduler
  | 0, s => s
  | k + 1, s => advanceN k (advanceScheduler s)

/-! ## Dispatch -/

/-- The profiling sample taken around a callback in
`Scheduler::serviceScheduledEvents`: `t1`/`t2` are the two `micros()`
readings (rollover handled as `max - min`). -/
def profSample (t1 t2 : Nat) (it : ScheduleItem) : ScheduleItem :=
  match it.prof_data with
  | some p =>
      let last := Nat.max (t1 % 2 ^ 32) (t2 % 2 ^ 32) - Nat.min (t1 % 2 ^ 32) (t2 % 2 ^ 32)
      { it with
          prof_data := some
            { p with
                last_time_micros := last,
                worst_time_micros := Nat.max p.worst_time_micros last,
                best_time_micros := Nat.min p.best_time_micros last,
                execution_count := (p.execution_count + 1) % 2 ^ 32 } }
  | none => it

/-- The body of the dispatch loop of `Scheduler::serviceScheduledEvents` for
the first node with `thread_fire` set: invoke the callback if non-null
(sampling the profiler around it when active), clear the fire flag, then run
the recurrence switch.  Returns the serviced node's replacement (empty when
auto-reaped) and the PID whose callback was invoked, if any. -/
def dispatchCurrent (t1 t2 : Nat) (current : ScheduleItem) :
    List ScheduleItem × Option Nat :=
  let invoked := if current.schedule_callback ≠ none then some current.pid else none
  let cur1 :=
    if current.schedule_callback ≠ none ∧ scheduleBeingProfiled current then
      profSample t1 t2 current
    else current
  let cur2 := { cur1 with thread_fire := false }
  if cur2.thread_recurs = -1 then
    ([cur2], invoked)
  else if cur2.thread_recurs = 0 then
    if cur2.autoclear then
      ([], invoked)
    else
      ([{ cur2 with
            thread_enabled := false,
            thread_fire := false,
            thread_time_to_wait := cur2.thread_period }], invoked)
  else
    ([{ cur2 with thread_recurs := int16wrap (cur2.thread_recurs - 1) }], invoked)

/-- Scan of the dispatch loop: walk the list, service the first node with
`thread_fire` set, then `break`.  Returns the new list, the invoked PID (if a
callback ran) and whether a node was serviced (`productive_loops`). -/
def serviceScan (t1 t2 : Nat) : List ScheduleItem → List ScheduleItem × Option Nat × Bool
  | [] => ([], none, false)
  | current :: rest =>
      if current.thread_fire then
        ((dispatchCurrent t1 t2 current).1 ++ rest,
          (dispatchCurrent t1 t2 current).2, true)
      else
        (current :: (serviceScan t1 t2 rest).1,
          (serviceScan t1 t2 rest).2.1, (serviceScan t1 t2 rest).2.2)

/-- `Scheduler::serviceScheduledEvents`.  `t0` is the `origin_time` reading,
`t1`/`t2` the profiling readings around the callback, `t3` the final reading
for the overhead measurement.  `currently_executing` is set to the serviced
PID around the callback and back to `0` after it, so it ends at `0` exactly
when a callback was invoked. -/
def serviceScheduledEvents (s : Scheduler) (t0 t1 t2 t3 : Nat) : Scheduler :=
  let r := serviceScan t1 t2 s.schedule_root_node
  { s with
    schedule_root_node := r.1,
    currently_executing := if r.2.1.isSome then 0 else s.currently_executing,
    productive_loops :=
      if r.2.2 then (s.productive_loops + 1) % 2 ^ 32 else s.productive_loops,
    total_loops := (s.total_loops + 1) % 2 ^ 32,
    overhead := u32sub t3 t0 }


/-! ## Basic lemmas about the list helpers -/

theorem advanceItem_pid (it : ScheduleItem) : (advanceItem it).pid = it.pid := by
  unfold advanceItem
  split
  · split <;> rfl
  · rfl

theorem advanceItem_period (it : ScheduleItem) :
    (advanceItem it).thread_period = it.thread_period := by
  unfold advanceItem
  split
  · split <;> rfl
  · rfl

theorem findNodeByPID_map (g_pid : Nat) (f : ScheduleItem → ScheduleItem)
    (hf : ∀ it, (f it).pid = it.pid) (l : List ScheduleItem) :
    findNodeByPID g_pid (l.map f) = (findNodeByPID g_pid l).map f := by
  induction l with
  | nil => rfl
  | cons current rest ih =>
      simp only [List.map_cons, findNodeByPID, hf current]
      by_cases h : current.pid = g_pid <;> simp [h, ih]

theorem findNodeByPID_updateFirstByPID (g_pid : Nat) (f : ScheduleItem → ScheduleItem)
    (hf : ∀ it, (f it).pid = it.pid) (l : List ScheduleItem) :
    findNodeByPID g_pid (updateFirstByPID g_pid f l) =
      (findNodeByPID g_pid l).map f := by
  induction l with
  | nil => rfl
  | cons current rest ih =>
      by_cases h : current.pid = g_pid
      · simp [updateFirstByPID, findNodeByPID, h, hf current]
      · simp [updateFirstByPID, findNodeByPID, h, ih]

theorem insertScheduleItemAtEnd_eq_append (nu : ScheduleItem) (l : List ScheduleItem) :
    insertScheduleItemAtEnd nu l = l ++ [nu] := by
  induction l with
  | nil => rfl
  | cons current rest ih => simp [insertScheduleItemAtEnd, ih]

/-! ## PID allocation lemmas -/

theorem get_valid_new_pid_fst_ne_zero (s : Scheduler) : (get_valid_new_pid s).1 ≠ 0 := by
  rw [get_valid_new_pid]
  split
  next h =>
    rw [get_valid_new_pid]
    split
    next h2 => simp [h] at h2
    next h2 => simpa using h2
  next h => simpa using h

theorem get_valid_new_pid_snd_root (s : Scheduler) :
    (get_valid_new_pid s).2.schedule_root_node = s.schedule_root_node := by
  rw [get_valid_new_pid]
  split
  next h =>
    rw [get_valid_new_pid]
    split
    next h2 => simp [h] at h2
    next h2 => rfl
  next h => rfl

/-! ## Concrete states used to evaluate the theorems -/

/-- An empty scheduler in its initial state. -/
def schedEmpty : Scheduler :=
  { next_pid := 1, schedule_root_node := [], currently_executing := 0,
    productive_loops := 0, total_loops := 0, overhead := 0 }

/-- A live, enabled item with `recurrence == 0` (one firing pending). -/
def itemRec0 : ScheduleItem :=
  { prof_data := none, pid := 7, thread_time_to_wait := 5, thread_period := 5,
    thread_recurs := 0, thread_enabled := true, thread_fire := false,
    autoclear := false, schedule_callback := some 1 }

/-- A scheduler holding only `itemRec0`. -/
def schedRec0 : Scheduler :=
  { next_pid := 8, schedule_root_node := [itemRec0], currently_executing := 0,
    productive_loops := 0, total_loops := 0, overhead := 0 }

/-! ## Claims -/

/-- C9: for every PID, including one that does not resolve to any live item,
`removeSchedule` returns `true`; it never returns `false`. -/
theorem removeSchedule_returns_true (s : Scheduler) (g_pid : Nat) :
    (removeSchedule s g_pid).1 = true := by
  unfold removeSchedule
  cases h : findNodeByPID g_pid s.schedule_root_node with
  | none => rfl
  | some obj => by_cases hx : obj.pid = s.currently_executing <;> simp [hx]

/-- C10: for every live, enabled item with `recurrence == 0`, `willRunAgain`
returns `false` (even though such an item has one more firing pending), and
`willRunAgain` returns `true` exactly when the item exists, is enabled, and
has `recurrence == -1` or `recurrence > 0`. -/
theorem willRunAgain_spec (s : Scheduler) (g_pid : Nat) :
    (∀ it, findNodeByPID g_pid s.schedule_root_node = some it →
        it.thread_enabled = true → it.thread_recurs = 0 →
        willRunAgain s g_pid = false)
    ∧ (willRunAgain s g_pid = true ↔
        ∃ it, findNodeByPID g_pid s.schedule_root_node = some it ∧
          it.thread_enabled = true ∧
          (it.thread_recurs = -1 ∨ it.thread_recurs > 0)) := by
  unfold willRunAgain
  cases h : findNodeByPID g_pid s.schedule_root_node with
  | none => simp
  | some it =>
      constructor
      · intro it' hit' hen hrec
        obtain rfl : it = it' := by simpa using hit'
        simp [hen, hrec]
      · constructor
        · intro hb
          refine ⟨it, rfl, ?_, ?_⟩
          · exact (Bool.and_eq_true_iff.mp hb).1
          · have := (Bool.and_eq_true_iff.mp hb).2
            rcases Bool.or_eq_true_iff.mp this with h1 | h1
            · exact Or.inl (by simpa using h1)
            · exact Or.inr (by simpa using h1)
        · rintro ⟨it', hit', hen, hrec⟩
          obtain rfl : it = it' := by simpa using hit'
          rcases hrec with h1 | h1 <;> simp [hen, h1]

/-- C10 witness: a live, enabled item with `recurrence == 0` on which
`willRunAgain` reports `false`. -/
theorem willRunAgain_spec_witness : willRunAgain schedRec0 7 = false :=
  (willRunAgain_spec schedRec0 7).1 itemRec0 (by decide) (by decide) (by decide)

/-- C3: `createSchedule` returns the sentinel PID `0` and leaves the engine
state unchanged whenever `period <= 1` or the callback is null; otherwise it
returns a non-zero PID and appends the new item at the end of the collection,
enabled immediately, with `due == false` and `timeToWait == period`. -/
theorem createSchedule_spec (s : Scheduler) (sch_period : Nat) (recurrence : Int)
    (ac : Bool) (sch_callback : Option Nat) :
    ((sch_period ≤ 1 ∨ sch_callback = none) →
        createSchedule s sch_period recurrence ac sch_callback = (0, s))
    ∧ (sch_period > 1 → sch_callback ≠ none →
        (createSchedule s sch_period recurrence ac sch_callback).1 ≠ 0 ∧
        (createSchedule s sch_period recurrence ac sch_callback).2.schedule_root_node =
          s.schedule_root_node ++
            [{ pid := (createSchedule s sch_period recurrence ac sch_callback).1,
               thread_enabled := true,
               thread_fire := false,
               thread_recurs := recurrence,
               thread_period := sch_period,
               thread_time_to_wait := sch_period,
               autoclear := ac,
               schedule_callback := sch_callback,
               prof_data := none }]) := by
  constructor
  · intro h
    unfold createSchedule
    rcases h with h | h
    · have hnp : ¬ sch_period > 1 := by omega
      simp [hnp]
    · by_cases hp : sch_period > 1 <;> simp [hp, h]
  · intro hp hcb
    have hreduce : createSchedule s sch_period recurrence ac sch_callback =
        ((get_valid_new_pid s).1,
          setRoot (get_valid_new_pid s).2
            (insertScheduleItemAtEnd
              { pid := (get_valid_new_pid s).1, thread_enabled := true,
                thread_fire := false, thread_recurs := recurrence,
                thread_period := sch_period, thread_time_to_wait := sch_period,
                autoclear := ac, schedule_callback := sch_callback,
                prof_data := none }
              (get_valid_new_pid s).2.schedule_root_node)) := by
      unfold createSchedule
      simp [hp, hcb]
    refine ⟨?_, ?_⟩
    · rw [hreduce]
      exact get_valid_new_pid_fst_ne_zero s
    · rw [hreduce]
      simp [setRoot, insertScheduleItemAtEnd_eq_append, get_valid_new_pid_snd_root]

/-- C3 witness: on the initial scheduler, an invalid period yields the
sentinel and no state change, and a valid creation appends the enabled item. -/
theorem createSchedule_spec_witness :
    createSchedule schedEmpty 1 (-1) false (some 1) = (0, schedEmpty) ∧
    ((createSchedule schedEmpty 5 (-1) false (some 1)).1 ≠ 0 ∧
      (createSchedule schedEmpty 5 (-1) false (some 1)).2.schedule_root_node =
        schedEmpty.schedule_root_node ++
          [{ pid := (createSchedule schedEmpty 5 (-1) false (some 1)).1,
             thread_enabled := true,
             thread_fire := false,
             thread_recurs := -1,
             thread_period := 5,
             thread_time_to_wait := 5,
             autoclear := false,
             schedule_callback := some 1,
             prof_data := none }]) :=
  ⟨(createSchedule_spec schedEmpty 1 (-1) false (some 1)).1 (Or.inl (by decide)),
   (createSchedule_spec schedEmpty 5 (-1) false (some 1)).2 (by decide) (by decide)⟩

/-! ## Positional decomposition lemmas -/

theorem findNodeByPID_append (g : Nat) (pre post : List ScheduleItem)
    (it : ScheduleItem) (hpre : ∀ x ∈ pre, x.pid ≠ g) (hit : it.pid = g) :
    findNodeByPID g (pre ++ it :: post) = some it := by
  induction pre with
  | nil => simp [findNodeByPID, hit]
  | cons a rest ih =>
      have ha : a.pid ≠ g := hpre a (by simp)
      simp only [List.cons_append, findNodeByPID, if_neg ha]
      exact ih (fun x hx => hpre x (by simp [hx]))

theorem updateFirstByPID_append (g : Nat) (f : ScheduleItem → ScheduleItem)
    (pre post : List ScheduleItem) (it : ScheduleItem)
    (hpre : ∀ x ∈ pre, x.pid ≠ g) (hit : it.pid = g) :
    updateFirstByPID g f (pre ++ it :: post) = pre ++ f it :: post := by
  induction pre with
  | nil => simp [updateFirstByPID, hit]
  | cons a rest ih =>
      have ha : a.pid ≠ g := hpre a (by simp)
      simp only [List.cons_append, updateFirstByPID, if_neg ha]
      exact congrArg (a :: ·) (ih (fun x hx => hpre x (by simp [hx])))

theorem destroyFirstByPID_append (g : Nat) (pre post : List ScheduleItem)
    (it : ScheduleItem) (hpre : ∀ x ∈ pre, x.pid ≠ g) (hit : it.pid = g) :
    destroyFirstByPID g (pre ++ it :: post) = pre ++ post := by
  induction pre with
  | nil => simp [destroyFirstByPID, hit]
  | cons a rest ih =>
      have ha : a.pid ≠ g := hpre a (by simp)
      simp only [List.cons_append, destroyFirstByPID, if_neg ha]
      exact congrArg (a :: ·) (ih (fun x hx => hpre x (by simp [hx])))

/-- C6: when the PID resolves to a live item, `removeSchedule` defers
destruction of the currently-executing item by forcing `recurrence = 0` and
`autoReap = true` (the item stays in the collection), destroys any other item
immediately, and returns `true` in both cases. -/
theorem removeSchedule_spec (s : Scheduler) (g_pid : Nat)
    (pre post : List ScheduleItem) (it : ScheduleItem)
    (hroot : s.schedule_root_node = pre ++ it :: post)
    (hpre : ∀ x ∈ pre, x.pid ≠ g_pid)
    (hit : it.pid = g_pid) :
    ((it.pid = s.currently_executing →
        removeSchedule s g_pid =
          (true, setRoot s
            (pre ++ { it with autoclear := true, thread_recurs := 0 } :: post)))
      ∧ (it.pid ≠ s.currently_executing →
        removeSchedule s g_pid = (true, setRoot s (pre ++ post)))) := by
  have hfind : findNodeByPID g_pid s.schedule_root_node = some it := by
    rw [hroot]; exact findNodeByPID_append g_pid pre post it hpre hit
  constructor
  · intro hexec
    unfold removeSchedule
    rw [hfind]
    have hcond : ¬ (it.pid ≠ s.currently_executing) := by simp [hexec]
    simp only [if_neg hcond]
    rw [hroot, updateFirstByPID_append g_pid _ pre post it hpre hit]
  · intro hexec
    unfold removeSchedule
    rw [hfind]
    simp only [ne_eq, hexec, not_false_eq_true, if_true, ite_true]
    rw [hroot, destroyFirstByPID_append g_pid pre post it hpre hit]

/-- A live item that is marked due (awaiting dispatch). -/
def itemDue : ScheduleItem :=
  { prof_data := none, pid := 9, thread_time_to_wait := 5, thread_period := 5,
    thread_recurs := -1, thread_enabled := true, thread_fire := true,
    autoclear := false, schedule_callback := some 2 }

/-- A scheduler holding `itemRec0` then `itemDue`, with `itemDue` the one
currently executing. -/
def schedExec : Scheduler :=
  { next_pid := 10, schedule_root_node := [itemRec0, itemDue],
    currently_executing := 9, productive_loops := 0, total_loops := 0,
    overhead := 0 }

/-- C6 witness: removing the currently-executing item (PID 9) defers
destruction; removing another live item (PID 7) destroys it immediately. -/
theorem removeSchedule_spec_witness :
    (removeSchedule schedExec 9 =
      (true, setRoot schedExec
        ([itemRec0] ++ { itemDue with autoclear := true, thread_recurs := 0 } :: [])))
    ∧ (removeSchedule schedExec 7 =
      (true, setRoot schedExec ([] ++ [itemDue]))) :=
  ⟨(removeSchedule_spec schedExec 9 [itemRec0] [] itemDue (by decide)
      (by intro x hx; fin_cases hx <;> decide) (by decide)).1 (by decide),
   (removeSchedule_spec schedExec 7 [] [itemDue] itemRec0 (by decide)
      (by intro x hx; fin_cases hx) (by decide)).2 (by decide)⟩

/-- A scheduler holding only the due item `itemDue`. -/
def schedDue : Scheduler :=
  { next_pid := 10, schedule_root_node := [itemDue], currently_executing := 0,
    productive_loops := 0, total_loops := 0, overhead := 0 }

/-- C2 counterexample: an enabled item that is already due (`thread_fire`)
and has `thread_time_to_wait = 5` is NOT left untouched by
`advanceScheduler`: its countdown is decremented to `4`. -/
theorem advance_due_item_changed_cex :
    (findNodeByPID 9 schedDue.schedule_root_node).map
        ScheduleItem.thread_time_to_wait = some 5
    ∧ (findNodeByPID 9 (advanceScheduler schedDue).schedule_root_node).map
        ScheduleItem.thread_time_to_wait = some 4 := by decide

/-- C2 (amended): `advanceScheduler` on an enabled, already-due item keeps the
due flag set (the `Bool` flag cannot fire a second time for an unserviced
tick) and changes no field other than the countdown, which keeps counting:
decremented while positive, reset to the period at zero. -/
theorem advance_on_due_item (s : Scheduler) (g_pid : Nat) (it : ScheduleItem)
    (hfind : findNodeByPID g_pid s.schedule_root_node = some it)
    (hen : it.thread_enabled = true) (hfire : it.thread_fire = true) :
    findNodeByPID g_pid (advanceScheduler s).schedule_root_node =
      some { it with thread_time_to_wait :=
        if it.thread_time_to_wait > 0 then it.thread_time_to_wait - 1
        else it.thread_period } := by
  have hmap : (advanceScheduler s).schedule_root_node
      = s.schedule_root_node.map advanceItem := rfl
  rw [hmap, findNodeByPID_map g_pid advanceItem advanceItem_pid, hfind]
  by_cases h : it.thread_time_to_wait > 0 <;>
    simp [advanceItem, hen, hfire, h]

/-- C2 witness: concrete evaluation of the amended statement on `schedDue`. -/
theorem advance_on_due_item_witness :
    findNodeByPID 9 (advanceScheduler schedDue).schedule_root_node =
      some { itemDue with thread_time_to_wait :=
        if itemDue.thread_time_to_wait > 0 then itemDue.thread_time_to_wait - 1
        else itemDue.thread_period } :=
  advance_on_due_item schedDue 9 itemDue (by decide) (by decide) (by decide)

/-! ## Iterated advance -/

/-- `k`-fold iteration of the per-item advance step (first tick first). -/
def advanceItemIter : Nat → ScheduleItem → ScheduleItem
  | 0, it => it
  | k + 1, it => advanceItemIter k (advanceItem it)

theorem advanceItemIter_succ_last (k : Nat) (it : ScheduleItem) :
    advanceItemIter (k + 1) it = advanceItem (advanceItemIter k it) := by
  induction k generalizing it with
  | zero => rfl
  | succ k ih =>
      rw [advanceItemIter, ih]
      rfl

theorem findNodeByPID_advanceN (g : Nat) (k : Nat) (s : Scheduler) :
    findNodeByPID g (advanceN k s).schedule_root_node
      = (findNodeByPID g s.schedule_root_node).map (advanceItemIter k) := by
  induction k generalizing s with
  | zero =>
      cases h : findNodeByPID g s.schedule_root_node <;>
        simp [advanceN, advanceItemIter, h]
  | succ k ih =>
      rw [advanceN, ih]
      have hone : findNodeByPID g (advanceScheduler s).schedule_root_node
          = (findNodeByPID g s.schedule_root_node).map advanceItem :=
        findNodeByPID_map g advanceItem advanceItem_pid s.schedule_root_node
      rw [hone]
      cases findNodeByPID g s.schedule_root_node <;> simp [advanceItemIter]

theorem advanceItemIter_disabled (m : Nat) (it : ScheduleItem)
    (hen : it.thread_enabled = false) : advanceItemIter m it = it := by
  induction m with
  | zero => rfl
  | succ m ih =>
      rw [advanceItemIter, show advanceItem it = it from by simp [advanceItem, hen]]
      exact ih

theorem advanceItemIter_countdown (j : Nat) (it : ScheduleItem)
    (hen : it.thread_enabled = true) (hfire : it.thread_fire = false)
    (hj : j ≤ it.thread_time_to_wait) :
    advanceItemIter j it =
      { it with thread_time_to_wait := it.thread_time_to_wait - j } := by
  induction j generalizing it with
  | zero => simp [advanceItemIter]
  | succ j ih =>
      have hpos : it.thread_time_to_wait > 0 := by omega
      rw [advanceItemIter,
        show advanceItem it
            = { it with thread_time_to_wait := it.thread_time_to_wait - 1 } from by
          simp [advanceItem, hen, hpos]]
      rw [ih _ (by simpa using hen) (by simpa using hfire) (by simp; omega)]
      simp [Nat.sub_sub]
      omega

/-! ## Per-operation effect on the node found by PID -/

theorem disableSchedule_find (s : Scheduler) (g : Nat) (it : ScheduleItem)
    (hfind : findNodeByPID g s.schedule_root_node = some it) :
    findNodeByPID g (disableSchedule s g).2.schedule_root_node =
      some { it with thread_enabled := false, thread_fire := false,
                     thread_time_to_wait := it.thread_period } := by
  unfold disableSchedule
  rw [hfind]
  show findNodeByPID g (updateFirstByPID g _ s.schedule_root_node) = _
  rw [findNodeByPID_updateFirstByPID g (fun obj =>
      { obj with thread_enabled := false, thread_fire := false,
                 thread_time_to_wait := obj.thread_period }) (fun x => rfl), hfind]
  rfl

theorem enableSchedule_find (s : Scheduler) (g : Nat) (it : ScheduleItem)
    (hfind : findNodeByPID g s.schedule_root_node = some it) :
    findNodeByPID g (enableSchedule s g).2.schedule_root_node =
      some { it with thread_enabled := true } := by
  unfold enableSchedule
  rw [hfind]
  show findNodeByPID g (updateFirstByPID g _ s.schedule_root_node) = _
  rw [findNodeByPID_updateFirstByPID g (fun obj =>
      { obj with thread_enabled := true }) (fun x => rfl), hfind]
  rfl

/-- C1 counterexample: a live schedule with period `5` is disabled and then
re-enabled with no intervening delay; after exactly `5` further calls to
`advanceScheduler` — the number the claim predicts — the due flag is still
clear, so the flag is not first set `P` calls after the re-enable. -/
theorem disable_enable_fire_at_period_cex :
    ((findNodeByPID 7 ((enableSchedule (disableSchedule schedRec0 7).2 7).2).schedule_root_node).map
        ScheduleItem.thread_period = some 5)
    ∧ ((findNodeByPID 7 (advanceN 5 ((enableSchedule (disableSchedule schedRec0 7).2 7).2)).schedule_root_node).map
        ScheduleItem.thread_fire = some false) := by decide

/-- C1 (amended): after `disableSchedule` and a later `enableSchedule` with no
intervening `delaySchedule` (any number `m` of advance calls may sit between
them; they leave the disabled item untouched), the due flag of the item with
period `P` is still clear after any `k ≤ P` calls to `advanceScheduler` and is
set after exactly `P + 1` calls: the first fire happens `P + 1` advance calls
after the re-enable, never sooner. -/
theorem disable_enable_first_fire (s : Scheduler) (g : Nat) (it : ScheduleItem)
    (m k : Nat)
    (hfind : findNodeByPID g s.schedule_root_node = some it)
    (hk : k ≤ it.thread_period) :
    ((findNodeByPID g (advanceN k ((enableSchedule
          (advanceN m (disableSchedule s g).2) g).2)).schedule_root_node).map
        ScheduleItem.thread_fire = some false)
    ∧ ((findNodeByPID g (advanceN (it.thread_period + 1) ((enableSchedule
          (advanceN m (disableSchedule s g).2) g).2)).schedule_root_node).map
        ScheduleItem.thread_fire = some true) := by
  have h2 : findNodeByPID g (advanceN m (disableSchedule s g).2).schedule_root_node
      = some { it with thread_enabled := false, thread_fire := false,
                       thread_time_to_wait := it.thread_period } := by
    rw [findNodeByPID_advanceN, disableSchedule_find s g it hfind]
    simp [advanceItemIter_disabled m
      { it with thread_enabled := false, thread_fire := false,
                thread_time_to_wait := it.thread_period } rfl]
  have h3 : findNodeByPID g
        ((enableSchedule (advanceN m (disableSchedule s g).2) g).2).schedule_root_node
      = some { it with thread_enabled := true, thread_fire := false,
                       thread_time_to_wait := it.thread_period } := by
    rw [enableSchedule_find _ g _ h2]
  constructor
  · rw [findNodeByPID_advanceN, h3]
    have hc := advanceItemIter_countdown k
      { it with thread_enabled := true, thread_fire := false,
                thread_time_to_wait := it.thread_period } rfl rfl (by exact hk)
    simp [hc]
  · rw [findNodeByPID_advanceN, h3]
    have hc := advanceItemIter_countdown it.thread_period
      { it with thread_enabled := true, thread_fire := false,
                thread_time_to_wait := it.thread_period } rfl rfl (by exact le_refl _)
    simp [advanceItemIter_succ_last, hc, advanceItem]

/-- C1 witness: concrete run of the amended statement on `schedRec0`
(period 5, one advance call between disable and enable): still clear after 5
advance calls, set after 6. -/
theorem disable_enable_first_fire_witness :
    ((findNodeByPID 7 (advanceN 5 ((enableSchedule
          (advanceN 1 (disableSchedule schedRec0 7).2) 7).2)).schedule_root_node).map
        ScheduleItem.thread_fire = some false)
    ∧ ((findNodeByPID 7 (advanceN 6 ((enableSchedule
          (advanceN 1 (disableSchedule schedRec0 7).2) 7).2)).schedule_root_node).map
        ScheduleItem.thread_fire = some true) :=
  disable_enable_first_fire schedRec0 7 itemRec0 1 5 (by decide) (by decide)

/-! ## C7: clearProfilingData -/

/-- A profiling record with one recorded execution. -/
def profOne : ScheduleProfile :=
  { last_time_micros := 15, worst_time_micros := 15, best_time_micros := 15,
    execution_count := 1, profiling_active := true }

/-- `itemRec0` with profiling attached and one recorded execution. -/
def itemProf : ScheduleItem := { itemRec0 with prof_data := some profOne }

/-- A scheduler holding only the profiled item `itemProf`. -/
def schedProf : Scheduler :=
  { next_pid := 8, schedule_root_node := [itemProf], currently_executing := 0,
    productive_loops := 1, total_loops := 1, overhead := 0 }

/-- C7 (code bug, evaluated at the failing input): after
`clearProfilingData(pid)` on an item that holds a profiling record, the item
STILL holds the (freed, dangling) record: `scheduleBeingProfiled(pid)` still
reports `true`, a subsequent `beginProfiling(pid)` allocates nothing, and the
stale statistics (`executionCount == 1`) survive — because the source nulls
only the local pointer copy after `free`, never `obj->prof_data`. -/
theorem clearProfilingData_bug :
    (scheduleBeingProfiledPID (clearProfilingDataPID schedProf 7) 7 = true)
    ∧ (beginProfilingPID (clearProfilingDataPID schedProf 7) 7
        = clearProfilingDataPID schedProf 7)
    ∧ (((findNodeByPID 7
          (beginProfilingPID (clearProfilingDataPID schedProf 7) 7).schedule_root_node).bind
            ScheduleItem.prof_data).map ScheduleProfile.execution_count = some 1) := by
  decide

/-! ## Dispatch lemmas -/

theorem int16wrap_eq_self (x : Int) (hlo : -32768 ≤ x) (hhi : x ≤ 32767) :
    int16wrap x = x := by
  unfold int16wrap
  omega

theorem serviceScheduledEvents_root (s : Scheduler) (t0 t1 t2 t3 : Nat) :
    (serviceScheduledEvents s t0 t1 t2 t3).schedule_root_node
      = (serviceScan t1 t2 s.schedule_root_node).1 := rfl

theorem serviceScan_append_nofire (t1 t2 : Nat) (pre rest : List ScheduleItem)
    (hpre : ∀ x ∈ pre, x.thread_fire = false) :
    serviceScan t1 t2 (pre ++ rest) =
      (pre ++ (serviceScan t1 t2 rest).1,
        (serviceScan t1 t2 rest).2.1, (serviceScan t1 t2 rest).2.2) := by
  induction pre with
  | nil => simp
  | cons a p ih =>
      have ha : a.thread_fire = false := hpre a (by simp)
      simp only [List.cons_append, serviceScan, ha, Bool.false_eq_true, if_false,
        List.append_eq]
      simp [ih (fun x hx => hpre x (by simp [hx]))]

theorem serviceScan_fire_head (t1 t2 : Nat) (a : ScheduleItem)
    (rest : List ScheduleItem) (ha : a.thread_fire = true) :
    serviceScan t1 t2 (a :: rest) =
      ((dispatchCurrent t1 t2 a).1 ++ rest, (dispatchCurrent t1 t2 a).2, true) := by
  simp [serviceScan, ha]

theorem dispatchCurrent_invoked (t1 t2 : Nat) (a : ScheduleItem)
    (hcb : a.schedule_callback ≠ none) :
    (dispatchCurrent t1 t2 a).2 = some a.pid := by
  unfold dispatchCurrent
  simp only [ne_eq, hcb, not_false_eq_true, ite_true, if_true]
  repeat' split
  all_goals rfl

/-- C4: after dispatch executes a due (unprofiled) item, the
recurrence-decrement policy is applied to exactly that item, every other item
staying in place unchanged: `-1` leaves the item unchanged apart from the due
flag being cleared; `0` with autoReap removes the item; `0` without autoReap
disables it with the due flag clear and the countdown reset to the period;
any other value is decremented by one with the item remaining enabled. -/
theorem dispatch_recurrence_policy (s : Scheduler) (t0 t1 t2 t3 : Nat)
    (pre post : List ScheduleItem) (a : ScheduleItem)
    (hroot : s.schedule_root_node = pre ++ a :: post)
    (hpre : ∀ x ∈ pre, x.thread_fire = false)
    (hfire : a.thread_fire = true)
    (hen : a.thread_enabled = true)
    (hcb : a.schedule_callback ≠ none)
    (hprof : scheduleBeingProfiled a = false)
    (hlo : -32768 < a.thread_recurs) (hhi : a.thread_recurs ≤ 32767) :
    ((a.thread_recurs = -1 →
        (serviceScheduledEvents s t0 t1 t2 t3).schedule_root_node
          = pre ++ { a with thread_fire := false } :: post)
     ∧ (a.thread_recurs = 0 → a.autoclear = true →
        (serviceScheduledEvents s t0 t1 t2 t3).schedule_root_node = pre ++ post)
     ∧ (a.thread_recurs = 0 → a.autoclear = false →
        (serviceScheduledEvents s t0 t1 t2 t3).schedule_root_node
          = pre ++
              ({ a with
                  thread_enabled := false,
                  thread_fire := false,
                  thread_time_to_wait := a.thread_period } :: post))
     ∧ (a.thread_recurs ≠ -1 → a.thread_recurs ≠ 0 →
        (serviceScheduledEvents s t0 t1 t2 t3).schedule_root_node
          = pre ++
              ({ a with
                  thread_fire := false,
                  thread_recurs := a.thread_recurs - 1 } :: post)
          ∧ ({ a with
                thread_fire := false,
                thread_recurs := a.thread_recurs - 1 } : ScheduleItem).thread_enabled
              = true)) := by
  have hmain : (serviceScheduledEvents s t0 t1 t2 t3).schedule_root_node
      = pre ++ ((dispatchCurrent t1 t2 a).1 ++ post) := by
    rw [serviceScheduledEvents_root, hroot,
      serviceScan_append_nofire t1 t2 pre _ hpre, serviceScan_fire_head t1 t2 a post hfire]
  refine ⟨?_, ?_, ?_, ?_⟩
  · intro hrec
    rw [hmain]
    simp [dispatchCurrent, hprof, hrec]
  · intro hrec hac
    rw [hmain]
    simp [dispatchCurrent, hprof, hrec, hac]
  · intro hrec hac
    rw [hmain]
    simp [dispatchCurrent, hprof, hrec, hac]
  · intro hrec1 hrec0
    constructor
    · rw [hmain]
      simp only [dispatchCurrent, hprof, Bool.false_eq_true, and_false, if_false,
        ite_false]
      simp [hrec1, hrec0, int16wrap_eq_self (a.thread_recurs - 1) (by omega) (by omega)]
    · exact hen

/-- C4 witness: the `-1` case on the concrete due item of `schedDue`: the item
survives with only its due flag cleared. -/
theorem dispatch_recurrence_policy_witness :
    (serviceScheduledEvents schedDue 0 0 0 0).schedule_root_node
      = [] ++ { itemDue with thread_fire := false } :: [] :=
  (dispatch_recurrence_policy schedDue 0 0 0 0 [] [] itemDue (by decide)
      (by simp) (by decide) (by decide) (by decide) (by decide)
      (by decide) (by decide)).1 (by decide)

/-- C5: with several due items, one dispatch call invokes only the first due
item's callback; every later item — in particular every other due item — is
left in place, entirely unchanged and still due, to be serviced by a later
call. -/
theorem dispatch_first_due_only (s : Scheduler) (t0 t1 t2 t3 : Nat)
    (pre mid post : List ScheduleItem) (a b : ScheduleItem)
    (hroot : s.schedule_root_node = pre ++ a :: (mid ++ b :: post))
    (hpre : ∀ x ∈ pre, x.thread_fire = false)
    (hfa : a.thread_fire = true) (hcb : a.schedule_callback ≠ none)
    (hfb : b.thread_fire = true) :
    ((serviceScan t1 t2 s.schedule_root_node).2.1 = some a.pid)
    ∧ (∃ serviced : List ScheduleItem,
        (serviceScheduledEvents s t0 t1 t2 t3).schedule_root_node
          = pre ++ serviced ++ (mid ++ b :: post))
    ∧ b.thread_fire = true := by
  have hscan : serviceScan t1 t2 s.schedule_root_node
      = (pre ++ ((dispatchCurrent t1 t2 a).1 ++ (mid ++ b :: post)),
          (dispatchCurrent t1 t2 a).2, true) := by
    rw [hroot, serviceScan_append_nofire t1 t2 pre _ hpre,
      serviceScan_fire_head t1 t2 a _ hfa]
  refine ⟨?_, ⟨(dispatchCurrent t1 t2 a).1, ?_⟩, hfb⟩
  · rw [hscan]
    exact dispatchCurrent_invoked t1 t2 a hcb
  · rw [serviceScheduledEvents_root, hscan]
    simp

/-- A second live item that is marked due, registered after `itemDue`. -/
def itemDueB : ScheduleItem :=
  { prof_data := none, pid := 11, thread_time_to_wait := 3, thread_period := 4,
    thread_recurs := 2, thread_enabled := true, thread_fire := true,
    autoclear := false, schedule_callback := some 3 }

/-- A scheduler with two simultaneously due items, `itemDue` first. -/
def schedTwoDue : Scheduler :=
  { next_pid := 12, schedule_root_node := [itemDue, itemDueB],
    currently_executing := 0, productive_loops := 0, total_loops := 0,
    overhead := 0 }

/-- C5 witness: with `itemDue` and `itemDueB` both due, one dispatch call
invokes only `itemDue` (PID 9); `itemDueB` stays in place, still due. -/
theorem dispatch_first_due_only_witness :
    ((serviceScan 0 0 schedTwoDue.schedule_root_node).2.1 = some itemDue.pid)
    ∧ (∃ serviced : List ScheduleItem,
        (serviceScheduledEvents schedTwoDue 0 0 0 0).schedule_root_node
          = [] ++ serviced ++ ([] ++ itemDueB :: []))
    ∧ itemDueB.thread_fire = true :=
  dispatch_first_due_only schedTwoDue 0 0 0 0 [] [] [] itemDue itemDueB
    (by decide) (by simp) (by decide) (by decide) (by decide)

/-! ## C8: the disabled-reset invariant -/

/-- The reset invariant for one item: a disabled item rests with
`timeToWait == period` and no pending fire. -/
def itemDisabledOk (it : ScheduleItem) : Bool :=
  it.thread_enabled || (it.thread_time_to_wait == it.thread_period && !it.thread_fire)

/-- C8 invariant over the whole collection. -/
def disabledResetInv (s : Scheduler) : Bool :=
  s.schedule_root_node.all itemDisabledOk

theorem all_updateFirstByPID (g : Nat) (f : ScheduleItem → ScheduleItem)
    (p : ScheduleItem → Bool) (l : List ScheduleItem)
    (hf : ∀ it, p it = true → p (f it) = true) (hl : l.all p = true) :
    (updateFirstByPID g f l).all p = true := by
  induction l with
  | nil => rfl
  | cons a rest ih =>
      simp only [List.all_cons, Bool.and_eq_true] at hl
      by_cases h : a.pid = g
      · simp [updateFirstByPID, h, hf a hl.1, hl.2]
      · simp [updateFirstByPID, h, hl.1, ih hl.2]

theorem all_destroyFirstByPID (g : Nat) (p : ScheduleItem → Bool)
    (l : List ScheduleItem) (hl : l.all p = true) :
    (destroyFirstByPID g l).all p = true := by
  induction l with
  | nil => rfl
  | cons a rest ih =>
      simp only [List.all_cons, Bool.and_eq_true] at hl
      by_cases h : a.pid = g
      · simp [destroyFirstByPID, h, hl.2]
      · simp [destroyFirstByPID, h, hl.1, ih hl.2]

theorem profSample_thread_enabled (t1 t2 : Nat) (a : ScheduleItem) :
    (profSample t1 t2 a).thread_enabled = a.thread_enabled := by
  unfold profSample
  split <;> rfl

theorem advanceItem_ok (it : ScheduleItem) (hit : itemDisabledOk it = true) :
    itemDisabledOk (advanceItem it) = true := by
  by_cases hen : it.thread_enabled = true
  · unfold advanceItem
    rw [if_pos hen]
    split <;> simp [itemDisabledOk, hen]
  · have hen2 : it.thread_enabled = false := by
      cases h : it.thread_enabled
      · rfl
      · exact absurd h hen
    rw [show advanceItem it = it from by simp [advanceItem, hen2]]
    exact hit

theorem dispatchCurrent_all (t1 t2 : Nat) (a : ScheduleItem)
    (hen : a.thread_enabled = true) :
    (dispatchCurrent t1 t2 a).1.all itemDisabledOk = true := by
  unfold dispatchCurrent
  by_cases hc : a.schedule_callback ≠ none ∧ scheduleBeingProfiled a = true
  · simp only [hc, ite_true, if_true]
    repeat' split
    all_goals simp [itemDisabledOk, profSample_thread_enabled, hen]
  · simp only [hc, ite_false, if_false]
    repeat' split
    all_goals simp [itemDisabledOk, hen]

theorem all_serviceScan (t1 t2 : Nat) (l : List ScheduleItem)
    (hl : l.all itemDisabledOk = true) :
    (serviceScan t1 t2 l).1.all itemDisabledOk = true := by
  induction l with
  | nil => rfl
  | cons a rest ih =>
      simp only [List.all_cons, Bool.and_eq_true] at hl
      by_cases hf : a.thread_fire = true
      · have hen : a.thread_enabled = true := by
          have h1 := hl.1
          simp [itemDisabledOk, hf] at h1
          exact h1
        simp only [serviceScan, hf, ite_true, if_true]
        rw [List.all_append]
        simp [dispatchCurrent_all t1 t2 a hen, hl.2]
      · simp only [serviceScan, hf, ite_false, if_false]
        simp [hl.1, ih hl.2]

/-- C8: every public operation — create, alter (all variants), enable,
disable, delay (both forms), remove, advance and dispatch — preserves the
invariant that every live item with `enabled == false` has
`timeToWait == period` and `due == false`. -/
theorem disabled_reset_invariant_preserved (s : Scheduler)
    (hinv : disabledResetInv s = true) :
    (∀ per rec ac cb, disabledResetInv (createSchedule s per rec ac cb).2 = true)
    ∧ (∀ g per rec ac cb, disabledResetInv (alterSchedule s g per rec ac cb).2 = true)
    ∧ (∀ g ac, disabledResetInv (alterScheduleAutoclear s g ac).2 = true)
    ∧ (∀ g cb, disabledResetInv (alterScheduleCallback s g cb).2 = true)
    ∧ (∀ g per, disabledResetInv (alterSchedulePeriod s g per).2 = true)
    ∧ (∀ g rec, disabledResetInv (alterScheduleRecurrence s g rec).2 = true)
    ∧ (∀ g, disabledResetInv (enableSchedule s g).2 = true)
    ∧ (∀ g, disabledResetInv (disableSchedule s g).2 = true)
    ∧ (∀ g ms, disabledResetInv (delaySchedule s g ms).2 = true)
    ∧ (∀ g, disabledResetInv (delayScheduleDefault s g).2 = true)
    ∧ (∀ g, disabledResetInv (removeSchedule s g).2 = true)
    ∧ (disabledResetInv (advanceScheduler s) = true)
    ∧ (∀ t0 t1 t2 t3, disabledResetInv (serviceScheduledEvents s t0 t1 t2 t3) = true) := by
  have hroot : s.schedule_root_node.all itemDisabledOk = true := hinv
  refine ⟨?_, ?_, ?_, ?_, ?_, ?_, ?_, ?_, ?_, ?_, ?_, ?_, ?_⟩
  · intro per rec ac cb
    unfold createSchedule
    split
    next hp =>
      split
      next hc =>
        show (insertScheduleItemAtEnd _ (get_valid_new_pid s).2.schedule_root_node).all
            itemDisabledOk = true
        rw [insertScheduleItemAtEnd_eq_append, List.all_append,
          get_valid_new_pid_snd_root]
        simp [hroot, itemDisabledOk]
      next hc => exact hinv
    next hp => exact hinv
  · intro g per rec ac cb
    unfold alterSchedule
    split
    next hp =>
      split
      next hc =>
        cases hfind : findNodeByPID g s.schedule_root_node with
        | none => exact hinv
        | some obj =>
            exact all_updateFirstByPID g _ itemDisabledOk _
              (fun it hit => by simp [itemDisabledOk]) hroot
      next hc => exact hinv
    next hp => exact hinv
  · intro g ac
    unfold alterScheduleAutoclear
    cases hfind : findNodeByPID g s.schedule_root_node with
    | none => exact hinv
    | some obj =>
        exact all_updateFirstByPID g _ itemDisabledOk _
          (fun it hit => by simpa [itemDisabledOk] using hit) hroot
  · intro g cb
    unfold alterScheduleCallback
    split
    next hc =>
      cases hfind : findNodeByPID g s.schedule_root_node with
      | none => exact hinv
      | some obj =>
          exact all_updateFirstByPID g _ itemDisabledOk _
            (fun it hit => by simpa [itemDisabledOk] using hit) hroot
    next hc => exact hinv
  · intro g per
    unfold alterSchedulePeriod
    split
    next hp =>
      cases hfind : findNodeByPID g s.schedule_root_node with
      | none => exact hinv
      | some obj =>
          exact all_updateFirstByPID g _ itemDisabledOk _
            (fun it hit => by simp [itemDisabledOk]) hroot
    next hp => exact hinv
  · intro g rec
    unfold alterScheduleRecurrence
    cases hfind : findNodeByPID g s.schedule_root_node with
    | none => exact hinv
    | some obj =>
        exact all_updateFirstByPID g _ itemDisabledOk _
          (fun it hit => by
            by_cases he : it.thread_enabled = true <;>
              simp_all [itemDisabledOk]) hroot
  · intro g
    unfold enableSchedule
    cases hfind : findNodeByPID g s.schedule_root_node with
    | none => exact hinv
    | some obj =>
        exact all_updateFirstByPID g _ itemDisabledOk _
          (fun it hit => by simp [itemDisabledOk]) hroot
  · intro g
    unfold disableSchedule
    cases hfind : findNodeByPID g s.schedule_root_node with
    | none => exact hinv
    | some obj =>
        exact all_updateFirstByPID g _ itemDisabledOk _
          (fun it hit => by simp [itemDisabledOk]) hroot
  · intro g ms
    unfold delaySchedule
    cases hfind : findNodeByPID g s.schedule_root_node with
    | none => exact hinv
    | some obj =>
        exact all_updateFirstByPID g _ itemDisabledOk _
          (fun it hit => by simp [itemDisabledOk]) hroot
  · intro g
    unfold delayScheduleDefault
    cases hfind : findNodeByPID g s.schedule_root_node with
    | none => exact hinv
    | some obj =>
        exact all_updateFirstByPID g _ itemDisabledOk _
          (fun it hit => by simp [itemDisabledOk]) hroot
  · intro g
    unfold removeSchedule
    cases hfind : findNodeByPID g s.schedule_root_node with
    | none => exact hinv
    | some obj =>
        show disabledResetInv
            (if obj.pid ≠ s.currently_executing then
              (true, setRoot s (destroyFirstByPID g s.schedule_root_node))
            else
              (true, setRoot s (updateFirstByPID g (fun o =>
                { o with autoclear := true, thread_recurs := 0 })
                s.schedule_root_node))).2 = true
        by_cases hexe : obj.pid ≠ s.currently_executing
        · rw [if_pos hexe]
          exact all_destroyFirstByPID g itemDisabledOk _ hroot
        · rw [if_neg hexe]
          exact all_updateFirstByPID g _ itemDisabledOk _
            (fun it hit => by simpa [itemDisabledOk] using hit) hroot
  · show (s.schedule_root_node.map advanceItem).all itemDisabledOk = true
    rw [List.all_eq_true] at hroot ⊢
    intro x hx
    rcases List.mem_map.mp hx with ⟨y, hy, rfl⟩
    exact advanceItem_ok y (hroot y hy)
  · intro t0 t1 t2 t3
    show (serviceScan t1 t2 s.schedule_root_node).1.all itemDisabledOk = true
    exact all_serviceScan t1 t2 s.schedule_root_node hroot

/-- A disabled item at rest (`timeToWait == period`, no pending fire). -/
def itemOff : ScheduleItem :=
  { prof_data := none, pid := 13, thread_time_to_wait := 4, thread_period := 4,
    thread_recurs := 3, thread_enabled := false, thread_fire := false,
    autoclear := true, schedule_callback := some 4 }

/-- A scheduler satisfying the disabled-reset invariant, with one enabled and
one disabled item. -/
def schedInv : Scheduler :=
  { next_pid := 14, schedule_root_node := [itemRec0, itemOff],
    currently_executing := 0, productive_loops := 0, total_loops := 0,
    overhead := 0 }

/-- C8 witness: the invariant holds on `schedInv` and is preserved by a
concrete advance, disable and dispatch. -/
theorem disabled_reset_invariant_preserved_witness :
    disabledResetInv (advanceScheduler schedInv) = true
    ∧ disabledResetInv (disableSchedule schedInv 7).2 = true
    ∧ disabledResetInv (serviceScheduledEvents schedInv 0 0 0 0) = true :=
  ⟨(disabled_reset_invariant_preserved schedInv (by decide)).2.2.2.2.2.2.2.2.2.2.2.1,
   (disabled_reset_invariant_preserved schedInv (by decide)).2.2.2.2.2.2.2.1 7,
   (disabled_reset_invariant_preserved schedInv (by decide)).2.2.2.2.2.2.2.2.2.2.2.2 0 0 0 0⟩

end SchedulerSpec
